import Mathlib

/-!
Shallow embedding of the playback orchestration core of `src/index.js`
(the Discord podcast-radio bot): the mutable module state, the
`playCurrent` spawn path with its startup watchdog, the
`voiceStateUpdate` occupancy handler (pause / resume / restart), the
`AudioPlayerStatus.Idle` and `error` handlers, the slash-command
handlers (`skip`, `restart`, `pause`, `resume`), the RSS
`fetchEpisodes` refresh, and the boot path.

The JavaScript runs on a single-threaded event loop; each handler runs
to completion, so every handler is embedded as a total function
`State -> State` and an execution is a fold of a list of events.
The asynchronous stream fetch inside `playCurrent` is embedded by a
`fetchOk` parameter selecting the success or the catch path.
Transcoder subprocesses are identified by consecutive pid numbers;
`livePids` records which spawned processes have not been killed or
exited.  Timer callbacks (`setTimeout` watchdog, retry `loopPlay`) are
events; a watchdog closure captures its own `gotData` local, recorded
per spawn in an `Attempt` record together with the `isNewEpisodeStart`
flag and the offset handed to ffmpeg.
-/

namespace HLRadio

/-- Constant `RESUME_RESTART_THRESHOLD_MS` from src/index.js line 73. -/
def RESUME_RESTART_THRESHOLD_MS : Nat := 300000

/-- Constant `STARTUP_WATCHDOG_MS` from src/index.js line 72 (bound of the
startup watchdog timer; the model delivers the timer as an event). -/
def STARTUP_WATCHDOG_MS : Nat := 45000

/-- An episode as produced by `fetchEpisodes` (src/index.js lines
110-122); only the fields the core logic reads are kept. -/
structure Episode where
  title : String
  url : String
  pubDate : Nat
  deriving DecidableEq

/-- One `playCurrent` spawn attempt: the pid of the ffmpeg child it
spawned, the `resumeOffsetMs` passed to `spawnFfmpegFromStream`, the
captured `isNewEpisodeStart` local (line 252), the captured `gotData`
local (line 261) and whether the watchdog timer was cleared
(`clearTimeout`, line 274) or has already fired. -/
structure Attempt where
  pid : Nat
  offsetMs : Nat
  isNewStart : Bool
  gotData : Bool
  cleared : Bool
  deriving DecidableEq

/-- Status of the shared `@discordjs/voice` audio player.  `play()` of
a fresh resource puts the player in `Buffering` until the resource
stream produces data, at which point it becomes `Playing`. -/
inductive PlayerStatus where
  | Idle
  | Buffering
  | Playing
  | Paused
  deriving DecidableEq

/-- The module-level mutable state of src/index.js (lines 104-105,
181-191) plus bookkeeping for processes, armed watchdogs, sent
announcements, the last scheduled retry delay and `process.exit`. -/
structure State where
  episodes : List Episode
  episodeIndex : Nat
  resumeOffsetMs : Nat
  startedAtMs : Nat
  hasStartedPlayback : Bool
  isPausedDueToEmpty : Bool
  playLock : Bool
  ffmpegProc : Option Nat
  currentEpisode : Option Episode
  lastAnnouncedEpisodeIdx : Int
  playerStatus : PlayerStatus
  livePids : List Nat
  nextPid : Nat
  attempts : List Attempt
  announcements : List Nat
  lastScheduledRetryMs : Option Nat
  exitedWith : Option Nat
  deriving DecidableEq

/-- Initial values of the module-level variables (src/index.js lines
104-105, 181-191): empty catalog, index 0, offset 0, not started, not
paused, no lock, no process, nothing announced (`-1`), idle player. -/
def initialState : State where
  episodes := []
  episodeIndex := 0
  resumeOffsetMs := 0
  startedAtMs := 0
  hasStartedPlayback := false
  isPausedDueToEmpty := false
  playLock := false
  ffmpegProc := none
  currentEpisode := none
  lastAnnouncedEpisodeIdx := -1
  playerStatus := PlayerStatus.Idle
  livePids := []
  nextPid := 0
  attempts := []
  announcements := []
  lastScheduledRetryMs := none
  exitedWith := none

/-- Effect of `ffmpegProc?.kill('SIGKILL')`: removing the referenced pid (if
any) from the set of live processes. -/
def killProc (proc : Option Nat) (pids : List Nat) : List Nat :=
  match proc with
  | none => pids
  | some p => pids.filter (fun q => q ≠ p)

/-- Update the attempt record of the given pid. -/
def setAttempt (pid : Nat) (f : Attempt → Attempt) (l : List Attempt) : List Attempt :=
  l.map (fun a => if a.pid = pid then f a else a)

/-- Look up the attempt record of the given pid. -/
def findAttempt (pid : Nat) (s : State) : Option Attempt :=
  s.attempts.find? (fun a => a.pid = pid)

/-- Body of `playCurrent` (src/index.js lines 239-296) after the `playLock`
guard has been passed, i.e. the body of the `try` with the `finally`
releasing the lock.  Branches: empty catalog (lines 244-248, schedule
`loopPlay` in 30 s), successful fetch and spawn (lines 250-286), and
the `catch` of a failed fetch (lines 288-292, reset offset, advance
index, schedule `loopPlay` in 1 s).  The spawn records the offset
passed to ffmpeg and the captured `isNewEpisodeStart`; note that the
previous `ffmpegProc` is overwritten without being killed. -/
def playCurrentBody (fetchOk : Bool) (s : State) : State :=
  if s.episodes.length = 0 then
    { s with lastScheduledRetryMs := some 30000, playLock := false }
  else
    let ep := s.episodes.getD (s.episodeIndex % s.episodes.length) ⟨"", "", 0⟩
    let isNewStart : Bool :=
      if s.resumeOffsetMs = 0 ∧ (s.episodeIndex : Int) ≠ s.lastAnnouncedEpisodeIdx
      then true else false
    if fetchOk = true then
      let pid := s.nextPid
      { s with
        currentEpisode := some ep
        ffmpegProc := some pid
        livePids := pid :: s.livePids
        nextPid := pid + 1
        attempts :=
          { pid := pid, offsetMs := s.resumeOffsetMs, isNewStart := isNewStart,
            gotData := false, cleared := false } :: s.attempts
        playerStatus := PlayerStatus.Buffering
        isPausedDueToEmpty := false
        playLock := false }
    else
      { s with
        currentEpisode := some ep
        resumeOffsetMs := 0
        episodeIndex := (s.episodeIndex + 1) % s.episodes.length
        lastScheduledRetryMs := some 1000
        playLock := false }

/-- Function `playCurrent` (src/index.js line 239): the `playLock` reentrancy
guard (lines 240-241) followed by the body; the `finally` (line 294)
releases the lock in every branch of the body. -/
def playCurrent (fetchOk : Bool) (s : State) : State :=
  if s.playLock = true then s else playCurrentBody fetchOk s

/-- Function `loopPlay` (src/index.js lines 298-301). -/
def loopPlay (fetchOk : Bool) (s : State) : State :=
  if s.hasStartedPlayback = false ∨ s.isPausedDueToEmpty = true then s
  else playCurrent fetchOk s

/-- The `voiceStateUpdate` handler (src/index.js lines 369-418) for an
event on the target voice channel; `humans` is the number of non-bot
members after the update.  Zero humans while the player is `Playing`
accumulates the offset, pauses and kills the transcoder (lines
375-384); otherwise first-listener start (lines 388-393) or the
resume / restart decision against the threshold (lines 395-417). -/
def voiceStateUpdate (now : Nat) (humans : Nat) (fetchOk : Bool) (s : State) : State :=
  if humans = 0 then
    if s.playerStatus = PlayerStatus.Playing then
      let elapsed := if s.startedAtMs = 0 then 0 else now - s.startedAtMs
      { s with
        resumeOffsetMs := s.resumeOffsetMs + elapsed
        isPausedDueToEmpty := true
        playerStatus := PlayerStatus.Paused
        livePids := killProc s.ffmpegProc s.livePids
        ffmpegProc := none }
    else s
  else if s.hasStartedPlayback = false then
    loopPlay fetchOk { s with hasStartedPlayback := true }
  else if s.isPausedDueToEmpty = true then
    if RESUME_RESTART_THRESHOLD_MS ≤ s.resumeOffsetMs then
      playCurrent fetchOk { s with resumeOffsetMs := 0, isPausedDueToEmpty := false }
    else
      playCurrent fetchOk { s with isPausedDueToEmpty := false }
  else if s.playerStatus = PlayerStatus.Paused then
    if RESUME_RESTART_THRESHOLD_MS ≤ s.resumeOffsetMs then
      playCurrent fetchOk { s with resumeOffsetMs := 0 }
    else
      playCurrent fetchOk s
  else s

/-- The `stdout.once('data')` handler of one spawned ffmpeg child
(src/index.js lines 272-282): sets the attempt's `gotData`, clears its
watchdog, sets the global `startedAtMs`, moves the player to `Playing`
when the data came from the current resource, and announces when the
captured `isNewEpisodeStart` was set (recording the global
`episodeIndex` read at firing time, line 279).  A process that is no
longer alive produces no data; `.once` fires at most once. -/
def firstByteStep (now : Nat) (pid : Nat) (s : State) : State :=
  if pid ∈ s.livePids then
    match findAttempt pid s with
    | none => s
    | some a =>
      if a.gotData = true then s
      else
        let s1 : State :=
          { s with
            attempts := setAttempt pid (fun b => { b with gotData := true, cleared := true }) s.attempts
            startedAtMs := now }
        let s2 : State :=
          if s1.ffmpegProc = some pid
          then { s1 with playerStatus := PlayerStatus.Playing }
          else s1
        if a.isNewStart = true then
          { s2 with
            lastAnnouncedEpisodeIdx := (s2.episodeIndex : Int)
            announcements := s2.episodeIndex :: s2.announcements }
        else s2
  else s

/-- The startup watchdog timer of one attempt firing after
`STARTUP_WATCHDOG_MS` (src/index.js lines 262-270): a cleared timer
never fires; an uncleared one fires once and, when its captured
`gotData` is still false and playback is not paused-due-to-empty,
kills the *current* global `ffmpegProc` (not necessarily the handle it
was armed for), resets the offset, advances the index and schedules
`loopPlay` in 1 s. -/
def watchdogTimerStep (pid : Nat) (s : State) : State :=
  match findAttempt pid s with
  | none => s
  | some a =>
    if a.cleared = true then s
    else
      let s1 : State :=
        { s with attempts := setAttempt pid (fun b => { b with cleared := true }) s.attempts }
      if a.gotData = false ∧ s.isPausedDueToEmpty = false then
        { s1 with
          livePids := killProc s1.ffmpegProc s1.livePids
          resumeOffsetMs := 0
          episodeIndex := (s1.episodeIndex + 1) % s1.episodes.length
          lastScheduledRetryMs := some 1000 }
      else s1

/-- The `AudioPlayerStatus.Idle` handler (src/index.js lines 303-309):
the player's stream ended; unless paused-due-to-empty, reset the
offset, advance the index modulo the catalog length and schedule
`loopPlay` in 1 s. -/
def playerIdleStep (s : State) : State :=
  let s1 : State := { s with playerStatus := PlayerStatus.Idle }
  if s1.isPausedDueToEmpty = true then s1
  else
    { s1 with
      resumeOffsetMs := 0
      episodeIndex := (s1.episodeIndex + 1) % s1.episodes.length
      lastScheduledRetryMs := some 1000 }

/-- The `player.on('error')` handler (src/index.js lines 311-318). -/
def playerErrorStep (s : State) : State :=
  if s.isPausedDueToEmpty = true then s
  else
    { s with
      resumeOffsetMs := 0
      episodeIndex := (s.episodeIndex + 1) % s.episodes.length
      lastScheduledRetryMs := some 1000 }

/-- A transcoder process exiting on its own (stream ran out): it is
simply no longer alive. -/
def procExitStep (pid : Nat) (s : State) : State :=
  { s with livePids := s.livePids.filter (fun q => q ≠ pid) }

/-- Handler `handleSkip` (src/index.js lines 452-458): reset offset, advance
index, then `playCurrent()`; note that the running transcoder is not
killed. -/
def handleSkip (fetchOk : Bool) (s : State) : State :=
  if s.episodes.length = 0 then s
  else
    playCurrent fetchOk
      { s with
        resumeOffsetMs := 0
        episodeIndex := (s.episodeIndex + 1) % s.episodes.length }

/-- Handler `handleRestart` (src/index.js lines 460-465). -/
def handleRestart (fetchOk : Bool) (s : State) : State :=
  match s.currentEpisode with
  | none => s
  | some _ => playCurrent fetchOk { s with resumeOffsetMs := 0 }

/-- Handler `handlePause` (src/index.js lines 467-478): same accumulate /
pause / kill sequence as the occupancy-zero branch, reusing the
`isPausedDueToEmpty` flag. -/
def handlePause (now : Nat) (s : State) : State :=
  if s.playerStatus ≠ PlayerStatus.Playing then s
  else
    let elapsed := if s.startedAtMs = 0 then 0 else now - s.startedAtMs
    { s with
      resumeOffsetMs := s.resumeOffsetMs + elapsed
      isPausedDueToEmpty := true
      playerStatus := PlayerStatus.Paused
      livePids := killProc s.ffmpegProc s.livePids
      ffmpegProc := none }

/-- Handler `handleResume` (src/index.js lines 480-487). -/
def handleResume (fetchOk : Bool) (s : State) : State :=
  if s.playerStatus = PlayerStatus.Playing ∧ s.isPausedDueToEmpty = false then s
  else playCurrent fetchOk { s with isPausedDueToEmpty := false }

/-- A raw RSS feed item as seen by `fetchEpisodes` (src/index.js lines
110-122) before mapping and filtering. -/
structure RawItem where
  title : Option String
  enclosureUrl : Option String
  link : Option String
  guid : Option String
  pubDate : Option Nat
  deriving DecidableEq

/-- JavaScript `a || b` on possibly-absent strings: the left operand
is taken unless it is absent or empty (falsy). -/
def jsOr (a b : Option String) : Option String :=
  match a with
  | some x => if x = "" then b else some x
  | none => b

/-- Prefix test on strings by character list, the semantics of
JavaScript `url.startsWith('http')` (src/index.js line 122); defined
on the character lists so that it evaluates by kernel reduction. -/
def strStartsWith (s p : String) : Bool := p.data.isPrefixOf s.data

/-- Expression `it?.enclosure?.url || it?.link || it?.guid` of src/index.js line 112. -/
def itemUrl (it : RawItem) : Option String :=
  jsOr it.enclosureUrl (jsOr it.link it.guid)

/-- The map step (src/index.js lines 111-121) fused with the filter
(line 122): an item survives exactly when its derived url is a string
starting with `http`. -/
def toItem (it : RawItem) : Option Episode :=
  match itemUrl it with
  | none => none
  | some u =>
    if strStartsWith u "http" = true then
      some { title := (jsOr it.title (some "Untitled")).getD "Untitled"
             url := u
             pubDate := it.pubDate.getD 0 }
    else none

/-- Stable insertion by ascending `pubDate`, modelling
`items.sort((a, b) => a.pubDate - b.pubDate)` (src/index.js line 124). -/
def insertByPubDate (e : Episode) : List Episode → List Episode
  | [] => [e]
  | x :: xs =>
    if e.pubDate < x.pubDate then e :: x :: xs else x :: insertByPubDate e xs

/-- Sort of the filtered items by ascending publication date. -/
def sortByPubDate (l : List Episode) : List Episode :=
  l.foldr insertByPubDate []

/-- Outcome of one RSS fetch: the network / parse step threw, or it
returned a list of raw items. -/
inductive FetchOutcome where
  | failure
  | success (items : List RawItem)
  deriving DecidableEq

/-- Function `fetchEpisodes` (src/index.js lines 107-132): a thrown error is
caught and changes nothing; a successful parse maps, filters and sorts
the items and replaces `episodes` only when the result is non-empty
(line 125).  `episodeIndex` is never touched. -/
def fetchEpisodesStep (o : FetchOutcome) (s : State) : State :=
  match o with
  | FetchOutcome.failure => s
  | FetchOutcome.success items =>
    let eps := sortByPubDate (items.filterMap toItem)
    if eps.length ≠ 0 then { s with episodes := eps } else s

/-- Which of the required environment variables are present
(src/index.js lines 46-58). -/
structure EnvConfig where
  hasDiscordToken : Bool
  hasAppId : Bool
  hasVoiceChannelId : Bool
  hasRssUrl : Bool
  deriving DecidableEq

/-- The env check of src/index.js line 55. -/
def envOk (e : EnvConfig) : Bool :=
  e.hasDiscordToken && e.hasVoiceChannelId && e.hasRssUrl && e.hasAppId

/-- Boot (src/index.js lines 55-58 and 538-569): missing env exits the
process with code 1; otherwise `main` runs the first `fetchEpisodes`
and then waits for listeners.  Command registration, login and the
voice connection are external collaborators assumed to succeed here;
nothing in `main` inspects the catalog for emptiness. -/
def boot (env : EnvConfig) (firstFetch : FetchOutcome) : State :=
  if envOk env = false then { initialState with exitedWith := some 1 }
  else fetchEpisodesStep firstFetch initialState

/-- The discrete asynchronous events driving the session, each
dispatched to the handler embedded above.  Handlers that spawn carry
the outcome of the awaited stream fetch. -/
inductive Event where
  | occupancy (now : Nat) (humans : Nat) (fetchOk : Bool)
  | firstByte (now : Nat) (pid : Nat)
  | procExit (pid : Nat)
  | watchdogTimer (pid : Nat)
  | playerIdle
  | playerError
  | loopFire (fetchOk : Bool)
  | skipCmd (fetchOk : Bool)
  | restartCmd (fetchOk : Bool)
  | pauseCmd (now : Nat)
  | resumeCmd (fetchOk : Bool)
  | rssRefresh (o : FetchOutcome)
  deriving DecidableEq

/-- One event-loop dispatch. -/
def step : Event → State → State
  | Event.occupancy now humans fetchOk => voiceStateUpdate now humans fetchOk
  | Event.firstByte now pid => firstByteStep now pid
  | Event.procExit pid => procExitStep pid
  | Event.watchdogTimer pid => watchdogTimerStep pid
  | Event.playerIdle => playerIdleStep
  | Event.playerError => playerErrorStep
  | Event.loopFire fetchOk => loopPlay fetchOk
  | Event.skipCmd fetchOk => handleSkip fetchOk
  | Event.restartCmd fetchOk => handleRestart fetchOk
  | Event.pauseCmd now => handlePause now
  | Event.resumeCmd fetchOk => handleResume fetchOk
  | Event.rssRefresh o => fetchEpisodesStep o

/-- Run a list of events oldest-first. -/
def run (es : List Event) (s : State) : State :=
  es.foldl (fun t e => step e t) s

/-- Events delivered by presence changes and by the streams
themselves: occupancy updates, first bytes, natural process exits. -/
def Event.isPresenceDriven : Event → Bool
  | Event.occupancy _ _ _ => true
  | Event.firstByte _ _ => true
  | Event.procExit _ => true
  | _ => false

/-- A two-episode catalog state, as after a successful boot fetch. -/
def epA : Episode := { title := "A", url := "http://a", pubDate := 1 }

/-- Second sample episode. -/
def epB : Episode := { title := "B", url := "http://b", pubDate := 2 }

/-- Post-boot state with the two sample episodes loaded. -/
def twoEpState : State := { initialState with episodes := [epA, epB] }

/-- Third sample episode. -/
def epC : Episode := { title := "C", url := "http://c", pubDate := 3 }

/-- Invariant tying the live transcoder processes to the session
fields under presence-driven events: at most one live process, a live
process is the one `ffmpegProc` references, paused or never-started
states have no live process, and the `playLock` is free between
handler runs. -/
def HandleInv (s : State) : Prop :=
  s.livePids.length ≤ 1 ∧
  (∀ p ∈ s.livePids, s.ffmpegProc = some p) ∧
  (s.isPausedDueToEmpty = true → s.livePids = []) ∧
  (s.playerStatus = PlayerStatus.Paused → s.livePids = []) ∧
  (s.hasStartedPlayback = false →
    s.livePids = [] ∧ s.playerStatus = PlayerStatus.Idle ∧ s.isPausedDueToEmpty = false) ∧
  s.playLock = false

instance (s : State) : Decidable (HandleInv s) := by
  unfold HandleInv
  infer_instance

/-- Trace for the C1 counterexample: a first listener joins (spawning
transcoder 0), then `/skip` arrives while transcoder 0 is still alive. -/
def c1SkipTrace : List Event := [Event.occupancy 0 1 true, Event.skipCmd true]

/-- Trace for the C3 divergence: first listener joins (spawning
handle 0 and arming its watchdog), `/skip` supersedes handle 0 with
handle 1 before handle 0 produced a byte, then handle 0's watchdog
timer fires. -/
def c3Trace : List Event :=
  [Event.occupancy 0 1 true, Event.skipCmd true, Event.watchdogTimer 0]

/-- Trace for the C7 counterexample: first listener joins and episode
0 starts and is announced; the player then errors (a failure skip to
episode 1), the retry timer respawns, and episode 1 produces its
first byte. -/
def c7Trace : List Event :=
  [Event.occupancy 0 1 true, Event.firstByte 5 0, Event.playerError,
   Event.loopFire true, Event.firstByte 9 1]

/-- Environment with every required variable present. -/
def fullEnv : EnvConfig :=
  { hasDiscordToken := true, hasAppId := true, hasVoiceChannelId := true, hasRssUrl := true }

/-- A paused-due-to-empty session 1234 ms into episode 0, used to
instantiate the resume branch. -/
def c2WitState : State :=
  { twoEpState with
    hasStartedPlayback := true
    isPausedDueToEmpty := true
    resumeOffsetMs := 1234 }

/-- A three-episode session sitting on the last index, used to
instantiate the wraparound of a natural end. -/
def c4WitState : State :=
  { initialState with episodes := [epA, epB, epC], episodeIndex := 2 }

/-- A playing session with transcoder 0 spawned and its watchdog
armed and uncleared. -/
def c5WitState : State :=
  { twoEpState with
    hasStartedPlayback := true
    ffmpegProc := some 0
    livePids := [0]
    nextPid := 1
    attempts := [{ pid := 0, offsetMs := 0, isNewStart := true, gotData := false, cleared := false }] }

/-- A playing session: stream started at t = 100 ms with 7 ms already
accumulated from an earlier pause. -/
def c6WitState : State :=
  { twoEpState with
    hasStartedPlayback := true
    playerStatus := PlayerStatus.Playing
    startedAtMs := 100
    resumeOffsetMs := 7
    ffmpegProc := some 0
    livePids := [0]
    nextPid := 1 }

/-- A paused session with a mid-episode offset strictly between 0 and
the threshold. -/
def c7ResumeState : State :=
  { twoEpState with
    hasStartedPlayback := true
    isPausedDueToEmpty := true
    resumeOffsetMs := 100000 }

/-- A paused session over the threshold whose current episode (index
0) has already been announced. -/
def c7RestartState : State :=
  { twoEpState with
    hasStartedPlayback := true
    isPausedDueToEmpty := true
    resumeOffsetMs := 400000
    lastAnnouncedEpisodeIdx := 0 }

/-- A session with a live transcoder 0 whose spawn captured
`isNewEpisodeStart = false` (a resume). -/
def c7ByteState : State :=
  { twoEpState with
    livePids := [0]
    ffmpegProc := some 0
    nextPid := 1
    attempts := [{ pid := 0, offsetMs := 100, isNewStart := false, gotData := false, cleared := false }] }

/-- A state whose `playLock` is held (a `playCurrent` invocation in
flight across its awaited fetch). -/
def c9LockedState : State := { twoEpState with playLock := true }

/-- A raw feed item with no usable enclosure, link or guid: it is
dropped by the url filter. -/
def badItem : RawItem :=
  { title := some "x", enclosureUrl := none, link := none, guid := none, pubDate := none }

/-- A raw feed item with a valid http enclosure url. -/
def goodItem : RawItem :=
  { title := some "y"
    enclosureUrl := some "http://y"
    link := none
    guid := none
    pubDate := some 5 }

/-! Helper lemmas for the presence-driven single-live-handle
invariant. -/

/-- Killing the referenced process empties the live set when the live
set has at most one element and every live pid is the referenced one. -/
theorem killProc_self (proc : Option Nat) (pids : List Nat)
    (hlen : pids.length ≤ 1) (hmem : ∀ p ∈ pids, proc = some p) :
    killProc proc pids = [] := by
  cases pids with
  | nil => cases proc <;> rfl
  | cons q rest =>
    have hrest : rest = [] := by
      cases rest with
      | nil => rfl
      | cons r rs => simp at hlen
    subst hrest
    have hq : proc = some q := hmem q (by simp)
    subst hq
    simp [killProc]

/-- A `playCurrent` run from a lock-free, process-free, started,
unpaused state reestablishes the invariant in all three branches. -/
theorem handleInv_playCurrent (fetchOk : Bool) (s : State)
    (hL : s.playLock = false) (hP : s.livePids = [])
    (hS : s.hasStartedPlayback = true) (hE : s.isPausedDueToEmpty = false) :
    HandleInv (playCurrent fetchOk s) := by
  unfold playCurrent playCurrentBody HandleInv
  simp only [hL]
  split_ifs <;> simp_all

/-- The occupancy handler preserves the invariant. -/
theorem handleInv_voiceStateUpdate (now humans : Nat) (fetchOk : Bool) (s : State)
    (h : HandleInv s) : HandleInv (voiceStateUpdate now humans fetchOk s) := by
  obtain ⟨h1, h2, h3, h4, h5, h6⟩ := h
  have hkill : killProc s.ffmpegProc s.livePids = [] := killProc_self _ _ h1 h2
  unfold voiceStateUpdate
  split_ifs with c1 c2 c3 c4 c5 c6 c7 c8
  · -- humans = 0, Playing, startedAtMs = 0
    have hhs2 : s.hasStartedPlayback = true := by
      cases hb : s.hasStartedPlayback with
      | true => rfl
      | false =>
        obtain ⟨-, hidle, -⟩ := h5 hb
        rw [hidle] at c2
        exact absurd c2 (by simp)
    simp [HandleInv, hkill, hhs2, h6]
  · -- humans = 0, Playing, startedAtMs nonzero
    have hhs2 : s.hasStartedPlayback = true := by
      cases hb : s.hasStartedPlayback with
      | true => rfl
      | false =>
        obtain ⟨-, hidle, -⟩ := h5 hb
        rw [hidle] at c2
        exact absurd c2 (by simp)
    simp [HandleInv, hkill, hhs2, h6]
  · exact ⟨h1, h2, h3, h4, h5, h6⟩
  · -- first listener: c4 is hasStartedPlayback = false
    obtain ⟨hlp, hidle, hpe0⟩ := h5 c4
    have hcond : ¬((({ s with hasStartedPlayback := true } : State).hasStartedPlayback = false) ∨
        (({ s with hasStartedPlayback := true } : State).isPausedDueToEmpty = true)) := by
      simp [hpe0]
    rw [loopPlay, if_neg hcond]
    apply handleInv_playCurrent
    · exact h6
    · exact hlp
    · rfl
    · exact hpe0
  · -- paused-due-to-empty resume, over threshold (c5 is the paused flag)
    apply handleInv_playCurrent
    · exact h6
    · exact h3 c5
    · simpa using c4
    · rfl
  · -- paused-due-to-empty resume, under threshold
    apply handleInv_playCurrent
    · exact h6
    · exact h3 c5
    · simpa using c4
    · rfl
  · -- player Paused without empty flag, over threshold (c7 is playerStatus = Paused)
    apply handleInv_playCurrent
    · exact h6
    · exact h4 c7
    · simpa using c4
    · simpa using c5
  · -- player Paused without empty flag, under threshold
    apply handleInv_playCurrent
    · exact h6
    · exact h4 c7
    · simpa using c4
    · simpa using c5
  · exact ⟨h1, h2, h3, h4, h5, h6⟩

/-- The first-byte handler preserves the invariant: it never changes
the live set. -/
theorem handleInv_firstByte (now pid : Nat) (s : State) (h : HandleInv s) :
    HandleInv (firstByteStep now pid s) := by
  obtain ⟨h1, h2, h3, h4, h5, h6⟩ := h
  unfold firstByteStep
  by_cases hm : pid ∈ s.livePids
  · have hff : s.ffmpegProc = some pid := h2 pid hm
    have hne : s.livePids ≠ [] := by
      intro he
      rw [he] at hm
      exact absurd hm (by simp)
    have hpe : s.isPausedDueToEmpty = false := by
      cases hb : s.isPausedDueToEmpty with
      | false => rfl
      | true => exact absurd (h3 hb) hne
    have hps : s.playerStatus ≠ PlayerStatus.Paused := fun hb => hne (h4 hb)
    have hhs : s.hasStartedPlayback = true := by
      cases hb : s.hasStartedPlayback with
      | true => rfl
      | false => exact absurd (h5 hb).1 hne
    simp only [hm, if_pos, if_true]
    cases hfind : findAttempt pid s with
    | none => exact ⟨h1, h2, h3, h4, h5, h6⟩
    | some a =>
      simp only [hfind, hff]
      by_cases hgd : a.gotData = true
      · simp only [hgd, if_pos]
        exact ⟨h1, h2, h3, h4, h5, h6⟩
      · simp only [hgd, if_neg, if_true]
        have h2x : ∀ p ∈ s.livePids, pid = p := by
          intro p hp
          have hx := h2 p hp
          rw [hff] at hx
          exact Option.some.inj hx
        refine ⟨?_, ?_, ?_, ?_, ?_, ?_⟩ <;> split_ifs <;> simp_all <;> exact h2x
  · simp only [hm, if_neg, if_false]
    exact ⟨h1, h2, h3, h4, h5, h6⟩

/-- A natural process exit preserves the invariant (the live set only
shrinks). -/
theorem handleInv_procExit (pid : Nat) (s : State) (h : HandleInv s) :
    HandleInv (procExitStep pid s) := by
  obtain ⟨h1, h2, h3, h4, h5, h6⟩ := h
  unfold procExitStep
  refine ⟨?_, ?_, ?_, ?_, ?_, h6⟩
  · exact le_trans (List.length_filter_le _ _) h1
  · intro p hp
    exact h2 p (List.mem_of_mem_filter hp)
  · intro hb
    rw [h3 hb]
    rfl
  · intro hb
    rw [h4 hb]
    rfl
  · intro hb
    obtain ⟨ha, hsb, hpb⟩ := h5 hb
    exact ⟨by rw [ha]; rfl, hsb, hpb⟩

/-- The invariant is preserved along any presence-driven trace. -/
theorem handleInv_run (es : List Event) (s : State)
    (he : ∀ e ∈ es, e.isPresenceDriven = true) (h : HandleInv s) :
    HandleInv (run es s) := by
  induction es generalizing s with
  | nil => simpa [run] using h
  | cons e es ih =>
    have he1 : e.isPresenceDriven = true := he e (by simp)
    have he2 : ∀ e' ∈ es, e'.isPresenceDriven = true := fun e' hm => he e' (by simp [hm])
    have hstep : HandleInv (step e s) := by
      cases e with
      | occupancy now humans fetchOk => exact handleInv_voiceStateUpdate now humans fetchOk s h
      | firstByte now pid => exact handleInv_firstByte now pid s h
      | procExit pid => exact handleInv_procExit pid s h
      | watchdogTimer pid => simp [Event.isPresenceDriven] at he1
      | playerIdle => simp [Event.isPresenceDriven] at he1
      | playerError => simp [Event.isPresenceDriven] at he1
      | loopFire fetchOk => simp [Event.isPresenceDriven] at he1
      | skipCmd fetchOk => simp [Event.isPresenceDriven] at he1
      | restartCmd fetchOk => simp [Event.isPresenceDriven] at he1
      | pauseCmd now => simp [Event.isPresenceDriven] at he1
      | resumeCmd fetchOk => simp [Event.isPresenceDriven] at he1
      | rssRefresh o => simp [Event.isPresenceDriven] at he1
    have hfold : run (e :: es) s = run es (step e s) := by simp [run]
    rw [hfold]
    exact ih (step e s) he2 hstep

/-- Claim C1 (amended): across every sequence of presence-driven
events (occupancy toggles, stream first bytes, natural process exits)
from a state satisfying the session invariant, at most one transcoder
process is alive at any time: the occupancy-zero pause kills the
handle before any later resume spawns a fresh one.  The original
claim's further assertion that spawns triggered by the skip command
also first terminate the existing live handle is refuted by
`c1_skip_spawns_second_live_handle`. -/
theorem c1_presence_driven_single_live_handle (es : List Event) (s : State)
    (hs : HandleInv s) (he : ∀ e ∈ es, e.isPresenceDriven = true) :
    (run es s).livePids.length ≤ 1 :=
  (handleInv_run es s he hs).1

/-- Witness for C1: a join, first byte, leave, rejoin cycle from the
post-boot two-episode state keeps at most one transcoder alive. -/
theorem c1_single_live_handle_witness :
    (run [Event.occupancy 0 1 true, Event.firstByte 3 0,
          Event.occupancy 10 0 true, Event.occupancy 20 1 true] twoEpState).livePids.length ≤ 1 :=
  c1_presence_driven_single_live_handle _ twoEpState (by decide) (by decide)

/-- Counterexample for C1 as stated: after a first listener starts
transcoder 0, the skip command spawns transcoder 1 while transcoder 0
is still alive — the spawn does not first terminate the existing live
handle, and two transcoders are alive at once. -/
theorem c1_skip_spawns_second_live_handle :
    (run [Event.occupancy 0 1 true] twoEpState).livePids = [0] ∧
    (run [Event.occupancy 0 1 true] twoEpState).ffmpegProc = some 0 ∧
    (run c1SkipTrace twoEpState).livePids = [1, 0] ∧
    (run c1SkipTrace twoEpState).livePids.length = 2 := by decide

/-- Claim C2: on a PausedEmpty-to-Playing transition (returning
listener), an accumulated offset strictly below 300000 ms resumes the
same source (unchanged index) with the spawn receiving exactly that
offset, while an offset of 300000 ms or more (inclusive boundary)
restarts the same source with the spawn receiving offset 0; neither
branch changes the source index. -/
theorem c2_resume_restart_threshold (now humans : Nat) (s : State)
    (hh : humans ≠ 0) (hstart : s.hasStartedPlayback = true)
    (hp : s.isPausedDueToEmpty = true) (hl : s.playLock = false)
    (hn : s.episodes ≠ []) :
    (s.resumeOffsetMs < 300000 →
      (voiceStateUpdate now humans true s).episodeIndex = s.episodeIndex ∧
      (voiceStateUpdate now humans true s).resumeOffsetMs = s.resumeOffsetMs ∧
      (voiceStateUpdate now humans true s).ffmpegProc = some s.nextPid ∧
      (voiceStateUpdate now humans true s).attempts.head?.map Attempt.offsetMs
        = some s.resumeOffsetMs) ∧
    (300000 ≤ s.resumeOffsetMs →
      (voiceStateUpdate now humans true s).episodeIndex = s.episodeIndex ∧
      (voiceStateUpdate now humans true s).resumeOffsetMs = 0 ∧
      (voiceStateUpdate now humans true s).ffmpegProc = some s.nextPid ∧
      (voiceStateUpdate now humans true s).attempts.head?.map Attempt.offsetMs
        = some 0) := by
  have hlen : s.episodes.length ≠ 0 := by simpa using hn
  constructor
  · intro hlt
    have hnot : ¬ RESUME_RESTART_THRESHOLD_MS ≤ s.resumeOffsetMs := by
      simpa [RESUME_RESTART_THRESHOLD_MS] using hlt
    simp [voiceStateUpdate, hh, hstart, hp, hnot, playCurrent, playCurrentBody, hl, hlen]
  · intro hge
    have hyes : RESUME_RESTART_THRESHOLD_MS ≤ s.resumeOffsetMs := by
      simpa [RESUME_RESTART_THRESHOLD_MS] using hge
    simp [voiceStateUpdate, hh, hstart, hp, hyes, playCurrent, playCurrentBody, hl, hlen]

/-- Witness for C2: a paused session 1234 ms into episode 0 resumes
the same index with the spawn receiving offset 1234. -/
theorem c2_resume_restart_threshold_witness :
    c2WitState.resumeOffsetMs < 300000 ∧
    ((voiceStateUpdate 99 1 true c2WitState).episodeIndex = c2WitState.episodeIndex ∧
     (voiceStateUpdate 99 1 true c2WitState).resumeOffsetMs = c2WitState.resumeOffsetMs ∧
     (voiceStateUpdate 99 1 true c2WitState).ffmpegProc = some c2WitState.nextPid ∧
     (voiceStateUpdate 99 1 true c2WitState).attempts.head?.map Attempt.offsetMs
       = some c2WitState.resumeOffsetMs) :=
  ⟨by decide,
   (c2_resume_restart_threshold 99 1 c2WitState (by decide) (by decide) (by decide)
     (by decide) (by decide)).1 (by decide)⟩

/-- Claim C3 (code bug): the startup watchdog armed for handle 0
guards only by its captured boolean and by the pause flag, not by
handle identity; on the trace where the skip command supersedes
handle 0 (spawning handle 1, the current handle at index 1) before
handle 0's first byte, the stale watchdog firing kills the
superseding handle 1, resets the offset and advances the index from 1
back to 0 — a false skip of the new source — instead of being a
no-op. -/
theorem c3_stale_watchdog_kills_superseding_handle :
    ((run (c3Trace.take 2) twoEpState).ffmpegProc = some 1 ∧
     1 ∈ (run (c3Trace.take 2) twoEpState).livePids ∧
     (run (c3Trace.take 2) twoEpState).episodeIndex = 1) ∧
    ((run c3Trace twoEpState).livePids = [0] ∧
     (run c3Trace twoEpState).episodeIndex = 0 ∧
     (run c3Trace twoEpState).resumeOffsetMs = 0 ∧
     (run c3Trace twoEpState).lastScheduledRetryMs = some 1000) := by decide

/-- Claim C4: a natural end of the stream while not paused resets the
offset to 0 and advances the index by exactly one modulo the catalog
length, wrapping from the last index to 0. -/
theorem c4_natural_end_advances (s : State)
    (hp : s.isPausedDueToEmpty = false) (hn : s.episodes ≠ []) :
    (playerIdleStep s).resumeOffsetMs = 0 ∧
    (playerIdleStep s).episodeIndex = (s.episodeIndex + 1) % s.episodes.length ∧
    (s.episodeIndex = s.episodes.length - 1 → (playerIdleStep s).episodeIndex = 0) := by
  have hlen : 0 < s.episodes.length := List.length_pos.mpr hn
  refine ⟨by simp [playerIdleStep, hp], by simp [playerIdleStep, hp], ?_⟩
  intro hi
  simp [playerIdleStep, hp, hi, Nat.sub_add_cancel hlen]

/-- Witness for C4: with a three-episode catalog at the last index,
the natural end wraps the index around to 0 and zeroes the offset. -/
theorem c4_natural_end_advances_witness :
    c4WitState.isPausedDueToEmpty = false ∧
    (playerIdleStep c4WitState).resumeOffsetMs = 0 ∧
    (playerIdleStep c4WitState).episodeIndex = 0 :=
  ⟨rfl, (c4_natural_end_advances c4WitState rfl (by decide)).1,
   (c4_natural_end_advances c4WitState rfl (by decide)).2.2 (by decide)⟩

/-- Claim C5: every per-source failure delivered while not paused — a
sink/player error, an uncleared watchdog timeout whose attempt never
produced data, or a failed fetch inside `playCurrent` — resets the
offset to 0, advances the index by exactly one modulo the catalog
length and schedules the retry timer at 1000 ms, leaving the process
exit status untouched; every failure handler is a total state
transition, so no failure escapes to the caller. -/
theorem c5_failures_absorbed (s : State) (pid : Nat) (a : Attempt)
    (hp : s.isPausedDueToEmpty = false) (hn : s.episodes ≠ []) :
    ((playerErrorStep s).resumeOffsetMs = 0 ∧
     (playerErrorStep s).episodeIndex = (s.episodeIndex + 1) % s.episodes.length ∧
     (playerErrorStep s).lastScheduledRetryMs = some 1000 ∧
     (playerErrorStep s).exitedWith = s.exitedWith) ∧
    (findAttempt pid s = some a → a.cleared = false → a.gotData = false →
     (watchdogTimerStep pid s).resumeOffsetMs = 0 ∧
     (watchdogTimerStep pid s).episodeIndex = (s.episodeIndex + 1) % s.episodes.length ∧
     (watchdogTimerStep pid s).lastScheduledRetryMs = some 1000 ∧
     (watchdogTimerStep pid s).exitedWith = s.exitedWith) ∧
    (s.playLock = false →
     (playCurrent false s).resumeOffsetMs = 0 ∧
     (playCurrent false s).episodeIndex = (s.episodeIndex + 1) % s.episodes.length ∧
     (playCurrent false s).lastScheduledRetryMs = some 1000 ∧
     (playCurrent false s).exitedWith = s.exitedWith) := by
  refine ⟨?_, ?_, ?_⟩
  · simp [playerErrorStep, hp]
  · intro hfind hcl hgd
    simp [watchdogTimerStep, hfind, hcl, hgd, hp]
  · intro hl
    have hlen : s.episodes.length ≠ 0 := by simpa using hn
    simp [playCurrent, playCurrentBody, hl, hlen]

/-- Witness for C5: in a playing two-episode session with an armed
watchdog for transcoder 0, each of the three failure events advances
the index from 0 to 1 and schedules the 1000 ms retry. -/
theorem c5_failures_absorbed_witness :
    c5WitState.isPausedDueToEmpty = false ∧
    (playerErrorStep c5WitState).episodeIndex = 1 ∧
    (watchdogTimerStep 0 c5WitState).episodeIndex = 1 ∧
    (watchdogTimerStep 0 c5WitState).lastScheduledRetryMs = some 1000 ∧
    (playCurrent false c5WitState).episodeIndex = 1 :=
  ⟨rfl,
   (c5_failures_absorbed c5WitState 0
     { pid := 0, offsetMs := 0, isNewStart := true, gotData := false, cleared := false }
     rfl (by decide)).1.2.1,
   ((c5_failures_absorbed c5WitState 0
     { pid := 0, offsetMs := 0, isNewStart := true, gotData := false, cleared := false }
     rfl (by decide)).2.1 (by decide) rfl rfl).2.1,
   ((c5_failures_absorbed c5WitState 0
     { pid := 0, offsetMs := 0, isNewStart := true, gotData := false, cleared := false }
     rfl (by decide)).2.1 (by decide) rfl rfl).2.2.1,
   ((c5_failures_absorbed c5WitState 0
     { pid := 0, offsetMs := 0, isNewStart := true, gotData := false, cleared := false }
     rfl (by decide)).2.2 rfl).2.1⟩

/-- Claim C6: an occupancy-zero event while the player is `Playing`
adds exactly `now - startedAtMs` to the accumulated offset (given the
wall clock started and is monotone), stops and clears the transcoder
handle, and leaves every other session field — in particular the
source index — unchanged, while setting the paused flag and the
paused player status. -/
theorem c6_occupancy_zero_accumulates_offset (now : Nat) (s : State)
    (hplay : s.playerStatus = PlayerStatus.Playing)
    (h0 : 0 < s.startedAtMs) (hle : s.startedAtMs ≤ now) :
    (voiceStateUpdate now 0 true s).resumeOffsetMs = s.resumeOffsetMs + (now - s.startedAtMs) ∧
    (voiceStateUpdate now 0 true s).ffmpegProc = none ∧
    (voiceStateUpdate now 0 true s).livePids = killProc s.ffmpegProc s.livePids ∧
    (voiceStateUpdate now 0 true s).isPausedDueToEmpty = true ∧
    (voiceStateUpdate now 0 true s).playerStatus = PlayerStatus.Paused ∧
    (voiceStateUpdate now 0 true s).episodeIndex = s.episodeIndex ∧
    (voiceStateUpdate now 0 true s).episodes = s.episodes ∧
    (voiceStateUpdate now 0 true s).startedAtMs = s.startedAtMs ∧
    (voiceStateUpdate now 0 true s).hasStartedPlayback = s.hasStartedPlayback ∧
    (voiceStateUpdate now 0 true s).lastAnnouncedEpisodeIdx = s.lastAnnouncedEpisodeIdx ∧
    (voiceStateUpdate now 0 true s).attempts = s.attempts ∧
    (voiceStateUpdate now 0 true s).announcements = s.announcements ∧
    (voiceStateUpdate now 0 true s).nextPid = s.nextPid ∧
    (voiceStateUpdate now 0 true s).currentEpisode = s.currentEpisode ∧
    (voiceStateUpdate now 0 true s).playLock = s.playLock ∧
    (voiceStateUpdate now 0 true s).lastScheduledRetryMs = s.lastScheduledRetryMs ∧
    (voiceStateUpdate now 0 true s).exitedWith = s.exitedWith := by
  have hne : s.startedAtMs ≠ 0 := Nat.pos_iff_ne_zero.mp h0
  simp [voiceStateUpdate, hplay, hne]

/-- Witness for C6: pausing at t = 250 a stream started at t = 100
with 7 ms accumulated yields offset 7 + 150 = 157, clears the handle
and keeps the index. -/
theorem c6_occupancy_zero_accumulates_offset_witness :
    0 < c6WitState.startedAtMs ∧ c6WitState.startedAtMs ≤ 250 ∧
    (voiceStateUpdate 250 0 true c6WitState).resumeOffsetMs
      = c6WitState.resumeOffsetMs + (250 - c6WitState.startedAtMs) ∧
    (voiceStateUpdate 250 0 true c6WitState).ffmpegProc = none ∧
    (voiceStateUpdate 250 0 true c6WitState).episodeIndex = c6WitState.episodeIndex :=
  ⟨by decide, by decide,
   (c6_occupancy_zero_accumulates_offset 250 c6WitState rfl (by decide) (by decide)).1,
   (c6_occupancy_zero_accumulates_offset 250 c6WitState rfl (by decide) (by decide)).2.1,
   (c6_occupancy_zero_accumulates_offset 250 c6WitState rfl (by decide) (by decide)).2.2.2.2.2.1⟩

/-- Claim C7 (amended): a resume-from-offset spawn (paused, offset
strictly between 0 and the threshold) and a restart-from-threshold
spawn of an already-announced source both capture
`isNewEpisodeStart = false`, and a first byte from an attempt whose
captured flag is false never adds an announcement; announcements
therefore never fire on resume or restart-from-threshold.  The
original claim's restriction of announcements to only the
natural-advance and first-ever-play transitions is refuted by
`c7_announce_fires_on_failure_skip`: failure-skip (and manual-skip)
starts announce as well. -/
theorem c7_no_announce_on_resume_or_restart (now humans t pid : Nat) (s s2 : State)
    (a : Attempt)
    (hh : humans ≠ 0) (hstart : s.hasStartedPlayback = true)
    (hp : s.isPausedDueToEmpty = true) (hl : s.playLock = false)
    (hn : s.episodes ≠ []) :
    (0 < s.resumeOffsetMs → s.resumeOffsetMs < 300000 →
      (voiceStateUpdate now humans true s).attempts.head?.map Attempt.isNewStart
        = some false) ∧
    (300000 ≤ s.resumeOffsetMs → s.lastAnnouncedEpisodeIdx = (s.episodeIndex : Int) →
      (voiceStateUpdate now humans true s).attempts.head?.map Attempt.isNewStart
        = some false) ∧
    (findAttempt pid s2 = some a → a.isNewStart = false →
      (firstByteStep t pid s2).announcements = s2.announcements) := by
  have hlen : s.episodes.length ≠ 0 := by simpa using hn
  refine ⟨?_, ?_, ?_⟩
  · intro hpos hlt
    have hnot : ¬ RESUME_RESTART_THRESHOLD_MS ≤ s.resumeOffsetMs := by
      simpa [RESUME_RESTART_THRESHOLD_MS] using hlt
    have hnz : s.resumeOffsetMs ≠ 0 := Nat.pos_iff_ne_zero.mp hpos
    simp [voiceStateUpdate, hh, hstart, hp, hnot, playCurrent, playCurrentBody, hl, hlen, hnz]
  · intro hge hla
    have hyes : RESUME_RESTART_THRESHOLD_MS ≤ s.resumeOffsetMs := by
      simpa [RESUME_RESTART_THRESHOLD_MS] using hge
    simp [voiceStateUpdate, hh, hstart, hp, hyes, playCurrent, playCurrentBody, hl, hlen, hla]
  · intro hfind hnew
    unfold firstByteStep
    by_cases hm : pid ∈ s2.livePids
    · simp only [hm, if_true, hfind]
      by_cases hgd : a.gotData = true
      · simp [hgd]
      · simp [hgd, hnew]
        split <;> rfl
    · simp [hm]

/-- Witness for C7: a mid-offset resume and an over-threshold restart
of the announced episode 0 both spawn with the flag false, and the
first byte of such an attempt leaves the announcement list unchanged. -/
theorem c7_no_announce_witness :
    (0 < c7ResumeState.resumeOffsetMs ∧
     (voiceStateUpdate 1 1 true c7ResumeState).attempts.head?.map Attempt.isNewStart
       = some false) ∧
    (300000 ≤ c7RestartState.resumeOffsetMs ∧
     (voiceStateUpdate 1 1 true c7RestartState).attempts.head?.map Attempt.isNewStart
       = some false) ∧
    (firstByteStep 7 0 c7ByteState).announcements = c7ByteState.announcements :=
  ⟨⟨by decide,
    (c7_no_announce_on_resume_or_restart 1 1 7 0 c7ResumeState c7ByteState
      { pid := 0, offsetMs := 100, isNewStart := false, gotData := false, cleared := false }
      (by decide) (by decide) (by decide) (by decide) (by decide)).1 (by decide) (by decide)⟩,
   ⟨by decide,
    (c7_no_announce_on_resume_or_restart 1 1 7 0 c7RestartState c7ByteState
      { pid := 0, offsetMs := 100, isNewStart := false, gotData := false, cleared := false }
      (by decide) (by decide) (by decide) (by decide) (by decide)).2.1 (by decide) (by decide)⟩,
   (c7_no_announce_on_resume_or_restart 1 1 7 0 c7ResumeState c7ByteState
      { pid := 0, offsetMs := 100, isNewStart := false, gotData := false, cleared := false }
      (by decide) (by decide) (by decide) (by decide) (by decide)).2.2 (by decide) rfl⟩

/-- Counterexample for C7 as stated: on a trace containing exactly
one first-ever-play and no natural-end and no skip events, two
announcements fire — the second at the first byte following a
player-error failure skip, a transition that is neither
natural-advance nor first-ever-play. -/
theorem c7_announce_fires_on_failure_skip :
    (run (c7Trace.take 2) twoEpState).announcements = [0] ∧
    (run c7Trace twoEpState).announcements = [1, 0] ∧
    Event.playerIdle ∉ c7Trace ∧
    Event.skipCmd true ∉ c7Trace ∧ Event.skipCmd false ∉ c7Trace := by decide

/-- Claim C8 (amended): an empty source catalog is never fatal.  With
all required environment variables present, boot never exits the
process whatever the first fetch returns; if the catalog is empty, the
first listener's `playCurrent` schedules a 30 s retry, and any later
`playCurrent` against an empty catalog does the same.  Only missing
environment variables exit at the boot boundary. -/
theorem c8_empty_catalog_retries (env : EnvConfig) (o : FetchOutcome) (now : Nat)
    (henv : envOk env = true) :
    (boot env o).exitedWith = none ∧
    ((boot env o).episodes = [] →
      (step (Event.occupancy now 1 true) (boot env o)).lastScheduledRetryMs = some 30000 ∧
      (step (Event.occupancy now 1 true) (boot env o)).exitedWith = none) ∧
    (∀ s : State, s.episodes = [] → s.playLock = false →
      (playCurrent true s).lastScheduledRetryMs = some 30000 ∧
      (playCurrent true s).exitedWith = s.exitedWith) := by
  have hboot : boot env o = fetchEpisodesStep o initialState := by
    simp [boot, henv]
  have hexit : ∀ t : State, (fetchEpisodesStep o t).exitedWith = t.exitedWith := by
    intro t
    cases o with
    | failure => rfl
    | success items =>
      simp only [fetchEpisodesStep]
      split <;> rfl
  have hfields : ∀ t : State, (fetchEpisodesStep o t).hasStartedPlayback = t.hasStartedPlayback ∧
      (fetchEpisodesStep o t).isPausedDueToEmpty = t.isPausedDueToEmpty ∧
      (fetchEpisodesStep o t).playLock = t.playLock := by
    intro t
    cases o with
    | failure => exact ⟨rfl, rfl, rfl⟩
    | success items =>
      simp only [fetchEpisodesStep]
      split <;> exact ⟨rfl, rfl, rfl⟩
  refine ⟨by rw [hboot]; exact hexit initialState, ?_, ?_⟩
  · intro hemp
    obtain ⟨hhs, hpe, hpl⟩ := hfields initialState
    rw [hboot] at hemp ⊢
    have hhs2 : (fetchEpisodesStep o initialState).hasStartedPlayback = false := by
      rw [hhs]
      rfl
    have hpe2 : (fetchEpisodesStep o initialState).isPausedDueToEmpty = false := by
      rw [hpe]
      rfl
    have hpl2 : (fetchEpisodesStep o initialState).playLock = false := by
      rw [hpl]
      rfl
    simp [step, voiceStateUpdate, hhs2, loopPlay, playCurrent, playCurrentBody, hemp,
      hexit initialState, hpe2, hpl2]
    rfl
  · intro t hemp hpl
    simp [playCurrent, playCurrentBody, hpl, hemp]

/-- Witness for C8: booting with a failing first fetch leaves the
process alive, and the first listener's play attempt schedules the
30 s retry. -/
theorem c8_empty_catalog_retries_witness :
    envOk fullEnv = true ∧
    (boot fullEnv FetchOutcome.failure).exitedWith = none ∧
    (step (Event.occupancy 5 1 true) (boot fullEnv FetchOutcome.failure)).lastScheduledRetryMs
      = some 30000 :=
  ⟨rfl, (c8_empty_catalog_retries fullEnv FetchOutcome.failure 5 rfl).1,
   ((c8_empty_catalog_retries fullEnv FetchOutcome.failure 5 rfl).2.1 (by decide)).1⟩

/-- Counterexample for C8 as stated: a boot whose first fetch yields
an empty catalog does not terminate the process (exit status none,
refuting fatality at the boot boundary); playback instead retries in
30 s once a listener joins. -/
theorem c8_empty_catalog_boot_not_fatal :
    (boot fullEnv (FetchOutcome.success [])).exitedWith = none ∧
    (boot fullEnv FetchOutcome.failure).exitedWith = none ∧
    (step (Event.occupancy 0 1 true) (boot fullEnv (FetchOutcome.success []))).exitedWith
      = none ∧
    (step (Event.occupancy 0 1 true) (boot fullEnv (FetchOutcome.success []))).lastScheduledRetryMs
      = some 30000 := by decide

/-- Claim C9: the `playLock` guard makes `playCurrent` mutually
exclusive — an invocation arriving while the lock is held returns the
state entirely unchanged, and an invocation that takes the lock
always leaves it released, in the success, failure and empty-catalog
branches alike. -/
theorem c9_playLock_guard (fetchOk : Bool) (s : State) :
    (s.playLock = true → playCurrent fetchOk s = s) ∧
    (s.playLock = false → (playCurrent fetchOk s).playLock = false) := by
  constructor
  · intro h
    unfold playCurrent
    simp [h]
  · intro h
    unfold playCurrent playCurrentBody
    simp only [h]
    split_ifs <;> simp_all

/-- Witness for C9: a locked invocation is the identity on the whole
state, and an unlocked failing invocation releases the lock. -/
theorem c9_playLock_guard_witness :
    playCurrent true c9LockedState = c9LockedState ∧
    (playCurrent false twoEpState).playLock = false :=
  ⟨(c9_playLock_guard true c9LockedState).1 rfl,
   (c9_playLock_guard false twoEpState).2 rfl⟩

/-- Pushing one episode into the insertion sort grows the length by
one. -/
theorem length_insertByPubDate (e : Episode) (l : List Episode) :
    (insertByPubDate e l).length = l.length + 1 := by
  induction l with
  | nil => rfl
  | cons x xs ih =>
    unfold insertByPubDate
    split
    · simp
    · simp [ih]

/-- Sorting by publication date preserves the number of episodes. -/
theorem length_sortByPubDate (l : List Episode) :
    (sortByPubDate l).length = l.length := by
  induction l with
  | nil => rfl
  | cons x xs ih =>
    simp only [sortByPubDate, List.foldr_cons] at *
    rw [length_insertByPubDate, ih]
    simp

/-- Claim C10: a catalog refresh that fails, or whose mapped and
filtered item list is empty, leaves both the episode list and the
episode index unchanged; only a non-empty filtered list replaces the
episodes, and even then the index is untouched. -/
theorem c10_refresh_preserves_catalog (s : State) :
    (fetchEpisodesStep FetchOutcome.failure s = s) ∧
    (∀ items : List RawItem, items.filterMap toItem = [] →
      fetchEpisodesStep (FetchOutcome.success items) s = s) ∧
    (∀ items : List RawItem, items.filterMap toItem ≠ [] →
      (fetchEpisodesStep (FetchOutcome.success items) s).episodes
        = sortByPubDate (items.filterMap toItem) ∧
      (fetchEpisodesStep (FetchOutcome.success items) s).episodeIndex = s.episodeIndex) := by
  refine ⟨rfl, ?_, ?_⟩
  · intro items hempty
    simp [fetchEpisodesStep, hempty, sortByPubDate]
  · intro items hne
    have hlen : (sortByPubDate (items.filterMap toItem)).length ≠ 0 := by
      rw [length_sortByPubDate]
      simpa using hne
    simp [fetchEpisodesStep, hlen]

/-- Witness for C10: a failed refresh and a refresh yielding only an
item without a usable url leave the two-episode catalog untouched; a
refresh with one valid item keeps the index. -/
theorem c10_refresh_preserves_catalog_witness :
    fetchEpisodesStep FetchOutcome.failure twoEpState = twoEpState ∧
    fetchEpisodesStep (FetchOutcome.success [badItem]) twoEpState = twoEpState ∧
    (fetchEpisodesStep (FetchOutcome.success [goodItem]) twoEpState).episodeIndex
      = twoEpState.episodeIndex :=
  ⟨(c10_refresh_preserves_catalog twoEpState).1,
   (c10_refresh_preserves_catalog twoEpState).2.1 [badItem] (by decide),
   ((c10_refresh_preserves_catalog twoEpState).2.2 [goodItem] (by decide)).2⟩

end HLRadio
